import Mathlib

/-!
Shallow embedding of the appointment scheduling core of the
Hospital-Management-System repository (Flask + SQLAlchemy).

Sources embedded here:
  * `app/models.py` — the `Appointment`, `Treatment` and `DoctorAvailability`
    tables, including the two table-level unique constraints
    (`unique_appointment_slot` on (doctor_id, appointment_date,
    appointment_time) and uniqueness of the external identifier columns).
  * `app/patient.py` — `confirm_appointment`, `cancel_appointment`,
    `reschedule_appointment` (status gate), `confirm_reschedule`,
    `book_appointment` (availability expansion).
  * `app/doctor.py` — `complete_appointment`, `cancel_appointment`.
  * `app/admin.py` — `cancel_appointment`.
  * `app/auth.py` — the patient-identifier generation in `register`.

Modelling conventions: dates are absolute day numbers (`weekday d = d % 7`,
0 = Monday, matching Python `date.weekday`), times are minutes since
midnight, timestamps are minutes since the epoch.  A database commit that
raises (an `IntegrityError` from a unique constraint caught by the
`except` branch and rolled back) is modelled by returning `Err.DBError`
and the unchanged store.
-/

namespace HMS

/-- Appointment status strings of `models.py` line 189. -/
inductive Status where
  | Scheduled
  | Confirmed
  | InProgress
  | Completed
  | Cancelled
  | NoShow
deriving DecidableEq

/-- Error outcomes of the core operations.  `DBError` is the generic
`except Exception` branch: the transaction is rolled back and a failure
message flashed. -/
inductive Err where
  | ValidationError
  | SlotConflict
  | PolicyViolation
  | InvalidTransition
  | NotFound
  | DBError
deriving DecidableEq

/-- Calendar date as an absolute day number; day 0 is a Monday. -/
abbrev Date := Nat

/-- Time of day in minutes since midnight. -/
abbrev Time := Nat

/-- Row of the `appointments` table (`models.py` lines 180-205). -/
structure Apt where
  id : Nat
  appointment_id : String
  patient_id : Nat
  doctor_id : Nat
  appointment_date : Date
  appointment_time : Time
  status : Status
  appointment_type : String
  reason : Option String
  priority : String
  estimated_duration : Nat
  created_at : Nat
  updated_at : Nat
deriving DecidableEq

/-- Row of the `treatments` table (`models.py` lines 207-226), restricted to
the columns the embedded operations touch. -/
structure Trt where
  id : Nat
  treatment_id : String
  appointment_id : Nat
  diagnosis : String
  prescription : Option String
  treatment_notes : Option String
  follow_up_date : Option Date
deriving DecidableEq

/-- The persistent store: the two tables the lifecycle operations mutate. -/
structure Store where
  appts : List Apt
  treatments : List Trt
deriving DecidableEq

/-! ### Identifier generation (`auth.py` 99-104, `patient.py` 168-174, `doctor.py` 122-128) -/

/-- Decimal digit character, as produced by Python `f"{n:0Nd}"` formatting. -/
def digitChar (n : Nat) : Char := Char.ofNat (48 + n % 10)

/-- Fuel-indexed decimal rendering of a natural number. -/
def toDigitsAux : Nat → Nat → List Char
  | 0, _ => []
  | fuel + 1, n => if n < 10 then [digitChar n] else toDigitsAux fuel (n / 10) ++ [digitChar n]

/-- Decimal rendering of `n`; `n + 1` fuel always suffices. -/
def toDigits (n : Nat) : List Char := toDigitsAux (n + 1) n

/-- Left-pad with `0` characters to at least width `w`, as Python `:0Nd`
format specifiers do (longer renderings are kept, never truncated). -/
def padDigits (w : Nat) (l : List Char) : List Char :=
  List.replicate (w - l.length) '0' ++ l

/-- The formatted external identifier `f"{pre}{n:0wd}"`. -/
def mkId (pre : String) (w : Nat) (n : Nat) : String :=
  ⟨pre.data ++ padDigits w (toDigits n)⟩

/-- Numeric value of a decimal digit character. -/
def digitVal (c : Char) : Nat := c.toNat - 48

/-- Python `int()` applied to a slice of an identifier: every character must
be a digit, and the value is the usual base-10 fold.  `none` models the
`ValueError` raised on a malformed stored identifier. -/
def listToNat? (l : List Char) : Option Nat :=
  if l.isEmpty then none
  else if l.all Char.isDigit then some (l.foldl (fun a c => a * 10 + digitVal c) 0)
  else none

/-- One step of the identifier generator: given the identifier of the most
recently inserted row (or `none` when the table is empty), slice off the
`plen`-character literal suffix position (`[1:]` for patients, `[3:]` for
appointments and treatments), parse, add one and re-format at width `w`.
`none` models the uncaught parse failure on a corrupt stored identifier. -/
def genNextId (pre : String) (plen w : Nat) (last? : Option String) : Option String :=
  match last? with
  | none => some (mkId pre w 1)
  | some lastId => (listToNat? (lastId.data.drop plen)).map (fun k => mkId pre w (k + 1))

/-- Row with the greatest primary key: `query.order_by(id.desc()).first()`. -/
def lastApptByPk (l : List Apt) : Option Apt :=
  l.foldl (fun acc a =>
    match acc with
    | none => some a
    | some b => if b.id ≤ a.id then some a else some b) none

/-- Row with the greatest primary key among treatments. -/
def lastTrtByPk (l : List Trt) : Option Trt :=
  l.foldl (fun acc a =>
    match acc with
    | none => some a
    | some b => if b.id ≤ a.id then some a else some b) none

/-- Next appointment identifier (`patient.py` lines 168-174). -/
def genNextApptId (s : Store) : Option String :=
  genNextId "APT" 3 3 ((lastApptByPk s.appts).map (·.appointment_id))

/-- Next treatment identifier (`doctor.py` lines 122-128). -/
def genNextTrtId (s : Store) : Option String :=
  genNextId "TRT" 3 3 ((lastTrtByPk s.treatments).map (·.treatment_id))

/-- Next autoincrement primary key for an appointment row. -/
def apptPkNext (l : List Apt) : Nat := l.foldl (fun m a => max m a.id) 0 + 1

/-- Next autoincrement primary key for a treatment row. -/
def trtPkNext (l : List Trt) : Nat := l.foldl (fun m a => max m a.id) 0 + 1

/-! ### Conflict checking (`patient.py` 156-162 and 326-333) -/

/-- Statuses the application-level conflict query filters on
(`status.in_(['Scheduled', 'Confirmed', 'In-Progress'])`). -/
def isActive : Status → Bool
  | .Scheduled => true
  | .Confirmed => true
  | .InProgress => true
  | _ => false

/-- Application-level occupancy check of `confirm_appointment`: some
appointment of the doctor at exactly this date and time has an active
status. -/
def slotConflictActive (doc : Nat) (d : Date) (t : Time) (l : List Apt) : Bool :=
  l.any fun a =>
    a.doctor_id == doc && a.appointment_date == d && a.appointment_time == t && isActive a.status

/-- The table-level `unique_appointment_slot` constraint of `models.py`
line 202: it ranges over every row, with no status restriction. -/
def slotTakenAny (doc : Nat) (d : Date) (t : Time) (l : List Apt) : Bool :=
  l.any fun a =>
    a.doctor_id == doc && a.appointment_date == d && a.appointment_time == t

/-- Committing an `INSERT` into `appointments`: the unique constraints on
`appointment_id` and on (doctor_id, appointment_date, appointment_time)
are checked by the database; a violation raises, is caught, and the
transaction is rolled back. -/
def insertAppt (a : Apt) (s : Store) : Except Err Store :=
  if s.appts.any (fun b => b.appointment_id == a.appointment_id) then .error .DBError
  else if slotTakenAny a.doctor_id a.appointment_date a.appointment_time s.appts then
    .error .DBError
  else .ok { s with appts := s.appts ++ [a] }

/-! ### Booking (`patient.py` `confirm_appointment`, lines 140-198) -/

/-- The `POST /confirm_appointment` handler.  Form fields are modelled
post-parse: `none` covers an absent field (caught by the `not all([...])`
check) and, for date and time, an unparsable one.  On success the new row
carries the model defaults `priority='Normal'` and `estimated_duration=30`
and the explicit values `status='Scheduled'`,
`appointment_type='Consultation'`. -/
def confirm_appointment (patientPk : Nat) (doctor_id : Option Nat) (adate : Option Date)
    (atime : Option Time) (reason : Option String) (now : Nat) (s : Store) : Except Err Store :=
  match doctor_id, adate, atime with
  | some doc, some d, some t =>
    if slotConflictActive doc d t s.appts then .error .SlotConflict
    else
      match genNextApptId s with
      | none => .error .DBError
      | some nid =>
        insertAppt
          { id := apptPkNext s.appts, appointment_id := nid, patient_id := patientPk,
            doctor_id := doc, appointment_date := d, appointment_time := t,
            status := .Scheduled, appointment_type := "Consultation", reason := reason,
            priority := "Normal", estimated_duration := 30,
            created_at := now, updated_at := now } s
  | _, _, _ => .error .ValidationError

/-! ### Cancellation (`patient.py` 227-258, `doctor.py` 153-171, `admin.py` 292-308) -/

/-- The status gate of patient-side cancel and reschedule:
`status in ['Scheduled', 'Confirmed']`. -/
def schedOrConfirmed : Status → Bool
  | .Scheduled => true
  | .Confirmed => true
  | _ => false

/-- The scheduled date-time of an appointment in minutes since the epoch
(`datetime.combine(appointment_date, appointment_time)`). -/
def aptMinutes (a : Apt) : Nat := a.appointment_date * 1440 + a.appointment_time

/-- Set one appointment row to `Cancelled` and refresh `updated_at`. -/
def markCancelled (pk now : Nat) (l : List Apt) : List Apt :=
  l.map fun b => if b.id == pk then { b with status := .Cancelled, updated_at := now } else b

/-- Patient-side `cancel_appointment` (`patient.py` lines 227-258): requires
status Scheduled or Confirmed, and rejects when
`appointment_datetime - now < timedelta(hours=24)`, i.e. when the slot is
less than 1440 minutes away. -/
def cancel_appointment_patient (patientPk pk now : Nat) (s : Store) : Except Err Store :=
  match s.appts.find? (fun a => a.id == pk && a.patient_id == patientPk) with
  | none => .error .NotFound
  | some a =>
    if !schedOrConfirmed a.status then .error .InvalidTransition
    else if aptMinutes a < now + 1440 then .error .PolicyViolation
    else .ok { s with appts := markCancelled pk now s.appts }

/-- Doctor-side `cancel_appointment` (`doctor.py` lines 153-171): the row is
looked up by primary key and owning doctor, then cancelled with no status
or timing check of any kind. -/
def cancel_appointment_doctor (doctorPk pk now : Nat) (s : Store) : Except Err Store :=
  match s.appts.find? (fun a => a.id == pk && a.doctor_id == doctorPk) with
  | none => .error .NotFound
  | some _ => .ok { s with appts := markCancelled pk now s.appts }

/-- Admin-side `cancel_appointment` (`admin.py` lines 292-308): lookup by
primary key only, then cancelled with no status check. -/
def cancel_appointment_admin (pk now : Nat) (s : Store) : Except Err Store :=
  match s.appts.find? (fun a => a.id == pk) with
  | none => .error .NotFound
  | some _ => .ok { s with appts := markCancelled pk now s.appts }

/-! ### Completion (`doctor.py` `complete_appointment`, lines 98-151) -/

/-- The `POST` branch of `complete_appointment`.  The row is looked up by
primary key and owning doctor.  The only validation is the falsy check
`if not diagnosis` (absent or empty string); there is no check of the
current status.  On success the status is set to `Completed`, `updated_at`
refreshed, and one treatment row with a freshly generated `TRT` identifier
is inserted in the same transaction. -/
def complete_appointment (doctorPk pk : Nat) (diagnosis prescription treatment_notes : Option String)
    (follow_up : Option Date) (now : Nat) (s : Store) : Except Err Store :=
  match s.appts.find? (fun a => a.id == pk && a.doctor_id == doctorPk) with
  | none => .error .NotFound
  | some _ =>
    match diagnosis with
    | none => .error .ValidationError
    | some diag =>
      if diag == "" then .error .ValidationError
      else
        match genNextTrtId s with
        | none => .error .DBError
        | some tid =>
          if s.treatments.any (fun t => t.treatment_id == tid) then .error .DBError
          else
            .ok
              { appts :=
                  s.appts.map fun b =>
                    if b.id == pk then { b with status := .Completed, updated_at := now } else b,
                treatments :=
                  s.treatments ++
                    [{ id := trtPkNext s.treatments, treatment_id := tid, appointment_id := pk,
                       diagnosis := diag, prescription := prescription,
                       treatment_notes := treatment_notes, follow_up_date := follow_up }] }

/-! ### Reschedule (`patient.py` 260-304 and 306-352) -/

/-- The `POST /confirm_reschedule` handler (`patient.py` lines 306-352).
The conflict query excludes the appointment being rescheduled
(`Appointment.id != appointment_id`) and filters on active statuses; the
subsequent commit is additionally subject to the table-level
`unique_appointment_slot` constraint, which ignores status (the row being
updated itself cannot collide with itself).  Note the handler has no
status gate of its own. -/
def confirm_reschedule (patientPk pk : Nat) (new_date : Option Date) (new_time : Option Time)
    (now : Nat) (s : Store) : Except Err Store :=
  match s.appts.find? (fun a => a.id == pk && a.patient_id == patientPk) with
  | none => .error .NotFound
  | some a =>
    match new_date, new_time with
    | some nd, some nt =>
      if s.appts.any (fun b =>
          b.doctor_id == a.doctor_id && b.appointment_date == nd && b.appointment_time == nt &&
            isActive b.status && b.id != pk) then
        .error .SlotConflict
      else if s.appts.any (fun b =>
          b.doctor_id == a.doctor_id && b.appointment_date == nd && b.appointment_time == nt &&
            b.id != pk) then
        .error .DBError
      else
        .ok { s with
              appts :=
                s.appts.map fun b =>
                  if b.id == pk then
                    { b with appointment_date := nd, appointment_time := nt, updated_at := now }
                  else b }
    | _, _ => .error .ValidationError

/-- The two-step patient reschedule flow: the `GET /reschedule_appointment`
page (`patient.py` lines 260-304) rejects unless the status is Scheduled
or Confirmed, then the `POST` handler applies the update. -/
def reschedule_flow (patientPk pk : Nat) (nd : Option Date) (nt : Option Time) (now : Nat)
    (s : Store) : Except Err Store :=
  match s.appts.find? (fun a => a.id == pk && a.patient_id == patientPk) with
  | none => .error .NotFound
  | some a =>
    if !schedOrConfirmed a.status then .error .InvalidTransition
    else confirm_reschedule patientPk pk nd nt now s

/-! ### Availability expansion (`patient.py` `book_appointment`, lines 94-138) -/

/-- Row of the `doctor_availability` table (`models.py` lines 143-160). -/
structure WeeklyAvailability where
  doctor_id : Nat
  day_of_week : Nat
  start_time : Time
  end_time : Time
  is_available : Bool
deriving DecidableEq

/-- One concrete bookable window emitted by the expansion. -/
structure AvailWindow where
  date : Date
  start_time : Time
  end_time : Time
  day_of_week : Nat
deriving DecidableEq

/-- Python `date.weekday()`: 0 = Monday, 6 = Sunday. -/
def weekday (d : Date) : Nat := d % 7

/-- The availability expansion of `book_appointment` (`patient.py` lines
101-125): first the query filters the doctor's rows with
`is_available == True`, then for each day offset `i` in `range(7)` one
window is appended per row whose `day_of_week` equals the weekday of
`today + i`. -/
def expandAvailability (weekly : List WeeklyAvailability) (doctorPk : Nat) (today : Date) :
    List AvailWindow :=
  let actives := weekly.filter fun av => av.doctor_id == doctorPk && av.is_available
  (List.range 7).flatMap fun i =>
    (actives.filter fun av => av.day_of_week == weekday (today + i)).map fun av =>
      { date := today + i, start_time := av.start_time, end_time := av.end_time,
        day_of_week := weekday (today + i) }

/-! ### The identifier sequence issued across successive creations -/

/-- The list of external identifiers issued by `n` successive successful
creations in one category, starting from an empty table: each creation
reads the most recently inserted identifier and appends the generator's
output (rows are only ever appended, so the last element is the row with
the greatest primary key). -/
def issuedIds (pre : String) (plen w : Nat) : Nat → List String
  | 0 => []
  | n + 1 =>
    let prev := issuedIds pre plen w n
    match genNextId pre plen w prev.getLast? with
    | some nid => prev ++ [nid]
    | none => prev

instance {ε α : Type} [DecidableEq ε] [DecidableEq α] : DecidableEq (Except ε α) := fun x y =>
  match x, y with
  | .ok a, .ok b =>
    if h : a = b then .isTrue (by rw [h]) else .isFalse (by simp [h])
  | .error a, .error b =>
    if h : a = b then .isTrue (by rw [h]) else .isFalse (by simp [h])
  | .ok _, .error _ => .isFalse (by simp)
  | .error _, .ok _ => .isFalse (by simp)

/-! ## Lemmas about decimal rendering and parsing -/

theorem digitChar_isDigit (n : Nat) : (digitChar n).isDigit = true := by
  have h : n % 10 < 10 := Nat.mod_lt _ (by decide)
  unfold digitChar
  interval_cases h : n % 10 <;> decide

theorem digitVal_digitChar (n : Nat) : digitVal (digitChar n) = n % 10 := by
  have h : n % 10 < 10 := Nat.mod_lt _ (by decide)
  unfold digitChar digitVal
  interval_cases h : n % 10 <;> decide

theorem toDigitsAux_ne_nil (fuel n : Nat) (h : n < fuel) : toDigitsAux fuel n ≠ [] := by
  cases fuel with
  | zero => omega
  | succ f =>
    unfold toDigitsAux
    split
    · simp
    · simp

theorem toDigitsAux_all_digit (fuel n : Nat) :
    (toDigitsAux fuel n).all Char.isDigit = true := by
  induction fuel generalizing n with
  | zero => rfl
  | succ f ih =>
    unfold toDigitsAux
    split
    · simp [digitChar_isDigit]
    · simp only [List.all_append, Bool.and_eq_true]
      exact ⟨ih _, by simp [digitChar_isDigit]⟩

/-- The base-10 fold of `listToNat?`, with an explicit accumulator. -/
def valFrom (a : Nat) (l : List Char) : Nat :=
  l.foldl (fun x c => x * 10 + digitVal c) a

theorem valFrom_append (a : Nat) (l₁ l₂ : List Char) :
    valFrom a (l₁ ++ l₂) = valFrom (valFrom a l₁) l₂ := by
  simp [valFrom, List.foldl_append]

theorem valFrom_toDigitsAux (fuel : Nat) :
    ∀ n a, n < fuel →
      valFrom a (toDigitsAux fuel n) = a * 10 ^ (toDigitsAux fuel n).length + n := by
  induction fuel with
  | zero => intro n a h; omega
  | succ f ih =>
    intro n a _
    unfold toDigitsAux
    split
    · next hlt =>
      simp [valFrom, digitVal_digitChar, Nat.mod_eq_of_lt hlt]
    · next hge =>
      push_neg at hge
      have hdiv : n / 10 < f := by
        have h1 : n / 10 < n := Nat.div_lt_self (by omega) (by omega)
        omega
      rw [valFrom_append, ih (n / 10) a hdiv]
      simp only [List.length_append, List.length_singleton]
      simp only [valFrom, List.foldl_cons, List.foldl_nil, digitVal_digitChar]
      rw [pow_succ]
      have : 10 * (n / 10) + n % 10 = n := Nat.div_add_mod n 10
      ring_nf
      omega

theorem valFrom_toDigits (n : Nat) : valFrom 0 (toDigits n) = n := by
  have := valFrom_toDigitsAux (n + 1) n 0 (Nat.lt_succ_self n)
  simpa [toDigits] using this

theorem valFrom_replicate_zero (k : Nat) (l : List Char) :
    valFrom 0 (List.replicate k '0' ++ l) = valFrom 0 l := by
  induction k with
  | zero => simp
  | succ m ih =>
    simp only [List.replicate_succ, List.cons_append]
    have : valFrom 0 ('0' :: (List.replicate m '0' ++ l)) =
        valFrom 0 (List.replicate m '0' ++ l) := by
      simp [valFrom, digitVal]
    rw [this, ih]

theorem padDigits_all_digit (w : Nat) (l : List Char) (h : l.all Char.isDigit = true) :
    (padDigits w l).all Char.isDigit = true := by
  simp only [padDigits, List.all_append, Bool.and_eq_true]
  refine ⟨?_, h⟩
  simp [List.all_eq_true]

theorem padDigits_ne_nil (w : Nat) (l : List Char) (h : l ≠ []) : padDigits w l ≠ [] := by
  simp only [padDigits]
  intro hcontra
  rcases List.append_eq_nil.mp hcontra with ⟨_, h2⟩
  exact h h2

/-- Parsing the digit block of a formatted identifier recovers the number. -/
theorem listToNat?_padDigits_toDigits (w n : Nat) :
    listToNat? (padDigits w (toDigits n)) = some n := by
  have hne : toDigits n ≠ [] := toDigitsAux_ne_nil (n + 1) n (Nat.lt_succ_self n)
  have hdig : (toDigits n).all Char.isDigit = true := toDigitsAux_all_digit (n + 1) n
  have hpadne : padDigits w (toDigits n) ≠ [] := padDigits_ne_nil w _ hne
  have hpaddig := padDigits_all_digit w (toDigits n) hdig
  unfold listToNat?
  rw [if_neg (by simpa [List.isEmpty_iff] using hpadne), if_pos hpaddig]
  have : (padDigits w (toDigits n)).foldl (fun a c => a * 10 + digitVal c) 0 =
      valFrom 0 (padDigits w (toDigits n)) := rfl
  rw [this]
  simp only [padDigits]
  rw [valFrom_replicate_zero, valFrom_toDigits]

/-- Parsing the suffix of a well-formed identifier recovers the number. -/
theorem parse_mkId (pre : String) (w n : Nat) :
    listToNat? ((mkId pre w n).data.drop pre.data.length) = some n := by
  simp only [mkId]
  rw [List.drop_left]
  exact listToNat?_padDigits_toDigits w n

theorem mkId_injective (pre : String) (w : Nat) {m n : Nat} (h : mkId pre w m = mkId pre w n) :
    m = n := by
  have hm := parse_mkId pre w m
  have hn := parse_mkId pre w n
  rw [h] at hm
  rw [hm] at hn
  exact (Option.some.injEq _ _).mp hn

/-! ## The identifier sequence in closed form -/

/-- Numeric suffix of a stored identifier, as the generator reads it. -/
def suffVal (plen : Nat) (id : String) : Nat := (listToNat? (id.data.drop plen)).getD 0

theorem issuedIds_closed (pre : String) (w N : Nat) :
    issuedIds pre pre.data.length w N = (List.range N).map (fun k => mkId pre w (k + 1)) := by
  induction N with
  | zero => rfl
  | succ n ih =>
    show (match genNextId pre pre.data.length w (issuedIds pre pre.data.length w n).getLast? with
      | some nid => issuedIds pre pre.data.length w n ++ [nid]
      | none => issuedIds pre pre.data.length w n) = _
    rw [ih]
    cases n with
    | zero => simp [genNextId, List.range_succ]
    | succ m =>
      have hlast : (((List.range (m + 1)).map fun k => mkId pre w (k + 1))).getLast?
          = some (mkId pre w (m + 1)) := by
        rw [List.range_succ, List.map_append]
        simp
      rw [hlast]
      show (match (listToNat? ((mkId pre w (m + 1)).data.drop pre.data.length)).map
          (fun k => mkId pre w (k + 1)) with
        | some nid => ((List.range (m + 1)).map fun k => mkId pre w (k + 1)) ++ [nid]
        | none => (List.range (m + 1)).map fun k => mkId pre w (k + 1)) = _
      rw [parse_mkId]
      simp only [Option.map_some']
      rw [List.range_succ (n := m + 1), List.map_append]
      simp

theorem mkIdSeq_pairwise (pre : String) (w N : Nat) :
    (((List.range N).map fun k => mkId pre w (k + 1))).Pairwise
      (fun a b => suffVal pre.data.length a < suffVal pre.data.length b) := by
  rw [List.pairwise_map]
  refine (List.pairwise_lt_range N).imp ?_
  intro a b hab
  have ha := parse_mkId pre w (a + 1)
  have hb := parse_mkId pre w (b + 1)
  simp only [suffVal, ha, hb, Option.getD_some]
  omega

theorem mkIdSeq_nodup (pre : String) (w N : Nat) :
    (((List.range N).map fun k => mkId pre w (k + 1))).Nodup := by
  refine (List.nodup_range N).map ?_
  intro a b h
  have := mkId_injective pre w h
  omega

/-- C7: starting from an empty store, the `N` identifiers issued in each
category (patients `auth.py` 99-104, appointments `patient.py` 168-174,
treatments `doctor.py` 122-128) are exactly `P01, P02, ...`,
`APT001, ...`, `TRT001, ...` — each obtained by parsing the previous numeric
suffix, adding one and re-padding to at least the configured width — hence
strictly increasing in numeric suffix and collision-free, and the width
grows rather than truncates past `10^width - 1`: `P99` is followed by
`P100`. -/
theorem identifier_generation_monotone :
    (∀ N, issuedIds "P" 1 2 N = (List.range N).map fun k => mkId "P" 2 (k + 1)) ∧
    (∀ N, issuedIds "APT" 3 3 N = (List.range N).map fun k => mkId "APT" 3 (k + 1)) ∧
    (∀ N, issuedIds "TRT" 3 3 N = (List.range N).map fun k => mkId "TRT" 3 (k + 1)) ∧
    (∀ N, (issuedIds "P" 1 2 N).Pairwise fun a b => suffVal 1 a < suffVal 1 b) ∧
    (∀ N, (issuedIds "APT" 3 3 N).Pairwise fun a b => suffVal 3 a < suffVal 3 b) ∧
    (∀ N, (issuedIds "TRT" 3 3 N).Pairwise fun a b => suffVal 3 a < suffVal 3 b) ∧
    (∀ N, (issuedIds "P" 1 2 N).Nodup) ∧
    (∀ N, (issuedIds "APT" 3 3 N).Nodup) ∧
    (∀ N, (issuedIds "TRT" 3 3 N).Nodup) ∧
    issuedIds "P" 1 2 2 = ["P01", "P02"] ∧
    issuedIds "APT" 3 3 2 = ["APT001", "APT002"] ∧
    issuedIds "TRT" 3 3 1 = ["TRT001"] ∧
    genNextId "P" 1 2 (some "P99") = some "P100" := by
  refine ⟨fun N => issuedIds_closed "P" 2 N, fun N => issuedIds_closed "APT" 3 N,
    fun N => issuedIds_closed "TRT" 3 N, fun N => ?_, fun N => ?_, fun N => ?_,
    fun N => ?_, fun N => ?_, fun N => ?_, by decide, by decide, by decide, by decide⟩
  · rw [show issuedIds "P" 1 2 N = (List.range N).map (fun k => mkId "P" 2 (k + 1)) from
      issuedIds_closed "P" 2 N]
    exact mkIdSeq_pairwise "P" 2 N
  · rw [show issuedIds "APT" 3 3 N = (List.range N).map (fun k => mkId "APT" 3 (k + 1)) from
      issuedIds_closed "APT" 3 N]
    exact mkIdSeq_pairwise "APT" 3 N
  · rw [show issuedIds "TRT" 3 3 N = (List.range N).map (fun k => mkId "TRT" 3 (k + 1)) from
      issuedIds_closed "TRT" 3 N]
    exact mkIdSeq_pairwise "TRT" 3 N
  · rw [show issuedIds "P" 1 2 N = (List.range N).map (fun k => mkId "P" 2 (k + 1)) from
      issuedIds_closed "P" 2 N]
    exact mkIdSeq_nodup "P" 2 N
  · rw [show issuedIds "APT" 3 3 N = (List.range N).map (fun k => mkId "APT" 3 (k + 1)) from
      issuedIds_closed "APT" 3 N]
    exact mkIdSeq_nodup "APT" 3 N
  · rw [show issuedIds "TRT" 3 3 N = (List.range N).map (fun k => mkId "TRT" 3 (k + 1)) from
      issuedIds_closed "TRT" 3 N]
    exact mkIdSeq_nodup "TRT" 3 N

/-- C8: expanding a doctor's weekly availability over the 7-day horizon
emits exactly one window per pair of day offset and entry whose
`day_of_week` matches that date's weekday and whose `is_available` flag is
true, in horizon order, with no merging or deduplication; the expansion is
a pure function of its inputs (it reads no other state and mutates
nothing), so repeated invocations agree — and a doctor available only
Monday 09:00-12:00 and Wednesday 14:00-17:00, expanded from a Monday,
yields exactly the two corresponding windows. -/
theorem availability_expansion_spec :
    (∀ (weekly : List WeeklyAvailability) (doc : Nat) (today : Date),
      expandAvailability weekly doc today =
        (List.range 7).flatMap fun i =>
          (weekly.filter fun av =>
              av.doctor_id == doc && av.is_available &&
                av.day_of_week == weekday (today + i)).map fun av =>
            { date := today + i, start_time := av.start_time, end_time := av.end_time,
              day_of_week := weekday (today + i) }) ∧
    expandAvailability [⟨1, 0, 540, 720, true⟩, ⟨1, 2, 840, 1020, true⟩] 1 0 =
      [⟨0, 540, 720, 0⟩, ⟨2, 840, 1020, 2⟩] ∧
    (expandAvailability [⟨1, 0, 540, 720, true⟩, ⟨1, 2, 840, 1020, true⟩] 1 0).length = 2 := by
  refine ⟨fun weekly doc today => ?_, by decide, by decide⟩
  simp only [expandAvailability, List.filter_filter]
  refine congrArg _ ?_
  funext i
  refine congrArg _ (congrArg (fun p => List.filter p weekly) ?_)
  funext av
  rw [Bool.and_comm]

/-! ## Characterizing the booking operation -/

/-- Well-formedness of the stored appointment identifiers at one step: the
generator parses the most recent identifier and its output is unused.  The
application maintains this invariant because rows are only appended with
the freshly generated identifier. -/
def freshApptId (s : Store) : Bool :=
  match genNextApptId s with
  | none => false
  | some nid => s.appts.all fun a => a.appointment_id != nid

theorem slotConflictActive_imp_taken (doc : Nat) (d : Date) (t : Time) (l : List Apt)
    (h : slotConflictActive doc d t l = true) : slotTakenAny doc d t l = true := by
  simp only [slotConflictActive, List.any_eq_true, Bool.and_eq_true] at h
  obtain ⟨a, ha, ⟨⟨h1, h2⟩, h3⟩, _⟩ := h
  simp only [slotTakenAny, List.any_eq_true, Bool.and_eq_true]
  exact ⟨a, ha, ⟨h1, h2⟩, h3⟩

/-- Full characterization of `confirm_appointment` on present, parsed
inputs, assuming the generated identifier is fresh: success is equivalent
to the slot being free of appointments of every status (the table-level
constraint), an active occupant yields `SlotConflict`, and on success
exactly the new row is appended, carrying the defaults. -/
theorem confirm_appointment_spec (patientPk doc : Nat) (d : Date) (t : Time)
    (reason : Option String) (now : Nat) (s : Store) (hfresh : freshApptId s = true) :
    ((∃ s', confirm_appointment patientPk (some doc) (some d) (some t) reason now s = .ok s') ↔
      slotTakenAny doc d t s.appts = false) ∧
    (slotConflictActive doc d t s.appts = true →
      confirm_appointment patientPk (some doc) (some d) (some t) reason now s =
        .error .SlotConflict) ∧
    (∀ s', confirm_appointment patientPk (some doc) (some d) (some t) reason now s = .ok s' →
      ∃ nid, genNextApptId s = some nid ∧
        s'.appts = s.appts ++
          [{ id := apptPkNext s.appts, appointment_id := nid, patient_id := patientPk,
             doctor_id := doc, appointment_date := d, appointment_time := t,
             status := .Scheduled, appointment_type := "Consultation", reason := reason,
             priority := "Normal", estimated_duration := 30,
             created_at := now, updated_at := now }] ∧
        s'.treatments = s.treatments) := by
  unfold freshApptId at hfresh
  cases hgen : genNextApptId s with
  | none => rw [hgen] at hfresh; cases hfresh
  | some nid =>
    rw [hgen] at hfresh
    have hnoclash : (s.appts.any fun b => b.appointment_id == nid) = false := by
      rw [List.any_eq_false]
      intro b hb
      have hball := (List.all_eq_true.mp hfresh) b hb
      simpa using hball
    simp only [confirm_appointment, hgen]
    cases hact : slotConflictActive doc d t s.appts with
    | true =>
      have htaken := slotConflictActive_imp_taken doc d t s.appts hact
      simp only [eq_self_iff_true, if_true]
      refine ⟨?_, by trivial, ?_⟩
      · constructor
        · rintro ⟨s', hs'⟩; cases hs'
        · intro hfalse; rw [htaken] at hfalse; cases hfalse
      · intro s' hs'; cases hs'
    | false =>
      simp only [Bool.false_eq_true, if_false, insertAppt, hnoclash]
      cases htaken : slotTakenAny doc d t s.appts with
      | true =>
        simp only [eq_self_iff_true, if_true]
        refine ⟨?_, by trivial, ?_⟩
        · constructor
          · rintro ⟨s', hs'⟩; cases hs'
          · intro hfalse; simp at hfalse
        · intro s' hs'; cases hs'
      | false =>
        simp only [Bool.false_eq_true, if_false]
        refine ⟨?_, fun hc => hc.elim, ?_⟩
        · exact ⟨fun _ => by trivial, fun _ => ⟨_, rfl⟩⟩
        · intro s' hs'
          cases hs'
          exact ⟨nid, rfl, rfl, rfl⟩

/-! ## Characterizing reschedule and cancellation -/

theorem rescheduleActive_imp_any (pk docId : Nat) (nd : Date) (nt : Time) (l : List Apt)
    (h : (l.any fun b => b.doctor_id == docId && b.appointment_date == nd &&
        b.appointment_time == nt && isActive b.status && b.id != pk) = true) :
    (l.any fun b => b.doctor_id == docId && b.appointment_date == nd &&
        b.appointment_time == nt && b.id != pk) = true := by
  simp only [List.any_eq_true, Bool.and_eq_true] at h ⊢
  obtain ⟨b, hb, ⟨⟨⟨h1, h2⟩, h3⟩, _⟩, h5⟩ := h
  exact ⟨b, hb, ⟨⟨h1, h2⟩, h3⟩, h5⟩

/-- C4 (amended): for an appointment of the requesting patient with parsed
new date and time, the two-step reschedule flow succeeds if and only if
the current status is Scheduled or Confirmed AND no other appointment of
the same doctor — of ANY status, because the table-level
`unique_appointment_slot` constraint ignores status — occupies the new
slot; a wrong status yields `InvalidTransition`, an active occupant
yields `SlotConflict`, a non-active occupant makes the commit fail, and
on success only the row's date, time and `updated_at` are overwritten in
place. -/
theorem reschedule_flow_semantics (patientPk pk : Nat) (nd : Date) (nt : Time) (now : Nat)
    (s : Store) (a : Apt)
    (hfind : s.appts.find? (fun x => x.id == pk && x.patient_id == patientPk) = some a) :
    ((∃ s', reschedule_flow patientPk pk (some nd) (some nt) now s = .ok s') ↔
      (schedOrConfirmed a.status = true ∧
        (s.appts.any fun b => b.doctor_id == a.doctor_id && b.appointment_date == nd &&
          b.appointment_time == nt && b.id != pk) = false)) ∧
    (schedOrConfirmed a.status = false →
      reschedule_flow patientPk pk (some nd) (some nt) now s = .error .InvalidTransition) ∧
    (schedOrConfirmed a.status = true →
      (s.appts.any fun b => b.doctor_id == a.doctor_id && b.appointment_date == nd &&
        b.appointment_time == nt && isActive b.status && b.id != pk) = true →
      reschedule_flow patientPk pk (some nd) (some nt) now s = .error .SlotConflict) ∧
    (∀ s', reschedule_flow patientPk pk (some nd) (some nt) now s = .ok s' →
      s'.appts = (s.appts.map fun b => if b.id == pk then
        { b with appointment_date := nd, appointment_time := nt, updated_at := now } else b) ∧
      s'.treatments = s.treatments) := by
  cases hsc : schedOrConfirmed a.status with
  | false =>
    have hres : reschedule_flow patientPk pk (some nd) (some nt) now s =
        .error .InvalidTransition := by
      simp [reschedule_flow, hfind, hsc]
    refine ⟨?_, fun _ => hres, fun hc _ => Bool.noConfusion hc, ?_⟩
    · constructor
      · rintro ⟨s', hs'⟩; rw [hres] at hs'; cases hs'
      · rintro ⟨hcontra, -⟩; exact Bool.noConfusion hcontra
    · intro s' hs'; rw [hres] at hs'; cases hs'
  | true =>
    cases hactive : (s.appts.any fun b => b.doctor_id == a.doctor_id &&
        b.appointment_date == nd && b.appointment_time == nt &&
        isActive b.status && b.id != pk) with
    | true =>
      have hany := rescheduleActive_imp_any pk a.doctor_id nd nt s.appts hactive
      have hres : reschedule_flow patientPk pk (some nd) (some nt) now s =
          .error .SlotConflict := by
        simp [reschedule_flow, confirm_reschedule, hfind, hsc, hactive]
      refine ⟨?_, fun hc => Bool.noConfusion hc, fun _ _ => hres, ?_⟩
      · constructor
        · rintro ⟨s', hs'⟩; rw [hres] at hs'; cases hs'
        · rintro ⟨-, hfree⟩; rw [hany] at hfree; exact Bool.noConfusion hfree
      · intro s' hs'; rw [hres] at hs'; cases hs'
    | false =>
      cases hany : (s.appts.any fun b => b.doctor_id == a.doctor_id &&
          b.appointment_date == nd && b.appointment_time == nt && b.id != pk) with
      | true =>
        have hres : reschedule_flow patientPk pk (some nd) (some nt) now s =
            .error .DBError := by
          simp [reschedule_flow, confirm_reschedule, hfind, hsc, hactive, hany]
        refine ⟨?_, fun hc => Bool.noConfusion hc,
          fun _ hc => Bool.noConfusion hc, ?_⟩
        · constructor
          · rintro ⟨s', hs'⟩; rw [hres] at hs'; cases hs'
          · rintro ⟨-, hfree⟩; exact Bool.noConfusion hfree
        · intro s' hs'; rw [hres] at hs'; cases hs'
      | false =>
        have hres : reschedule_flow patientPk pk (some nd) (some nt) now s =
            .ok ⟨(s.appts.map fun b => if b.id == pk then
              { b with appointment_date := nd, appointment_time := nt, updated_at := now }
              else b), s.treatments⟩ := by
          simp [reschedule_flow, confirm_reschedule, hfind, hsc, hactive, hany]
        refine ⟨⟨fun _ => ⟨rfl, rfl⟩, fun _ => ⟨_, hres⟩⟩,
          fun hc => Bool.noConfusion hc,
          fun _ hc => Bool.noConfusion hc, ?_⟩
        · intro s' hs'
          rw [hres] at hs'
          cases hs'
          exact ⟨rfl, rfl⟩

/-- C5: for an appointment of the requesting patient, patient-initiated
cancellation succeeds — setting the status to Cancelled and refreshing
`updated_at` — if and only if the current status is Scheduled or Confirmed
and the scheduled date-time is at least 24 hours (1440 minutes) after the
request time; a request inside the window fails with `PolicyViolation`
(so exactly 24 hours before succeeds and 23h59m before fails), and
nothing changes on failure. -/
theorem patient_cancel_semantics (patientPk pk now : Nat) (s : Store) (a : Apt)
    (hfind : s.appts.find? (fun x => x.id == pk && x.patient_id == patientPk) = some a) :
    ((∃ s', cancel_appointment_patient patientPk pk now s = .ok s') ↔
      (schedOrConfirmed a.status = true ∧ now + 1440 ≤ aptMinutes a)) ∧
    (schedOrConfirmed a.status = false →
      cancel_appointment_patient patientPk pk now s = .error .InvalidTransition) ∧
    (schedOrConfirmed a.status = true → aptMinutes a < now + 1440 →
      cancel_appointment_patient patientPk pk now s = .error .PolicyViolation) ∧
    (∀ s', cancel_appointment_patient patientPk pk now s = .ok s' →
      s'.appts = markCancelled pk now s.appts ∧ s'.treatments = s.treatments) := by
  cases hsc : schedOrConfirmed a.status with
  | false =>
    have hres : cancel_appointment_patient patientPk pk now s =
        .error .InvalidTransition := by
      simp [cancel_appointment_patient, hfind, hsc]
    refine ⟨?_, fun _ => hres, fun hc _ => Bool.noConfusion hc, ?_⟩
    · constructor
      · rintro ⟨s', hs'⟩; rw [hres] at hs'; cases hs'
      · rintro ⟨hcontra, -⟩; exact Bool.noConfusion hcontra
    · intro s' hs'; rw [hres] at hs'; cases hs'
  | true =>
    by_cases hw : aptMinutes a < now + 1440
    · have hres : cancel_appointment_patient patientPk pk now s =
          .error .PolicyViolation := by
        simp [cancel_appointment_patient, hfind, hsc, hw]
      refine ⟨?_, fun hc => Bool.noConfusion hc, fun _ _ => hres, ?_⟩
      · constructor
        · rintro ⟨s', hs'⟩; rw [hres] at hs'; cases hs'
        · rintro ⟨-, hge⟩; omega
      · intro s' hs'; rw [hres] at hs'; cases hs'
    · have hres : cancel_appointment_patient patientPk pk now s =
          .ok ⟨markCancelled pk now s.appts, s.treatments⟩ := by
        simp [cancel_appointment_patient, hfind, hsc, hw]
      refine ⟨⟨fun _ => ⟨rfl, by omega⟩, fun _ => ⟨_, hres⟩⟩,
        fun hc => Bool.noConfusion hc, fun _ hlt => absurd hlt hw, ?_⟩
      · intro s' hs'
        rw [hres] at hs'
        cases hs'
        exact ⟨rfl, rfl⟩

/-- C9: a successful `confirm_reschedule` only overwrites the target
row's `appointment_date`, `appointment_time` and `updated_at`; its
`appointment_id`, patient and doctor references and status are unchanged,
every other row is untouched, and no new record — of the prior slot or
otherwise — is created. -/
theorem reschedule_preserves_identity (patientPk pk : Nat) (d : Date)
    (t : Time) (now : Nat) (s s' : Store)
    (h : confirm_reschedule patientPk pk (some d) (some t) now s = .ok s') :
    s'.treatments = s.treatments ∧
      s'.appts = (s.appts.map fun b => if b.id == pk then
        { b with appointment_date := d, appointment_time := t, updated_at := now } else b) ∧
      s'.appts.length = s.appts.length ∧
      (∀ b ∈ s.appts, (b.id == pk) = false → b ∈ s'.appts) ∧
      (∀ b ∈ s.appts, (b.id == pk) = true →
        ∃ b' ∈ s'.appts, b'.appointment_id = b.appointment_id ∧
          b'.patient_id = b.patient_id ∧ b'.doctor_id = b.doctor_id ∧
          b'.status = b.status ∧ b'.appointment_date = d ∧ b'.appointment_time = t ∧
          b'.updated_at = now) := by
  unfold confirm_reschedule at h
  cases hfind : s.appts.find? (fun x => x.id == pk && x.patient_id == patientPk) with
  | none => rw [hfind] at h; cases h
  | some a =>
    rw [hfind] at h
    simp only at h
    by_cases h1 : (s.appts.any fun b => b.doctor_id == a.doctor_id &&
        b.appointment_date == d && b.appointment_time == t &&
        isActive b.status && b.id != pk) = true
    · rw [if_pos h1] at h; cases h
    · rw [if_neg h1] at h
      by_cases h2 : (s.appts.any fun b => b.doctor_id == a.doctor_id &&
          b.appointment_date == d && b.appointment_time == t && b.id != pk) = true
      · rw [if_pos h2] at h; cases h
      · rw [if_neg h2] at h
        cases h
        refine ⟨rfl, rfl, by rw [List.length_map], ?_, ?_⟩
        · intro b hb hbid
          refine List.mem_map.mpr ⟨b, hb, ?_⟩
          rw [hbid]
          rfl
        · intro b hb hbid
          have hmem : ({ b with appointment_date := d, appointment_time := t, updated_at := now } : Apt) ∈ (s.appts.map fun c => if c.id == pk then { c with appointment_date := d, appointment_time := t, updated_at := now } else c) := by
            refine List.mem_map.mpr ⟨b, hb, ?_⟩
            rw [hbid]
            rfl
          exact ⟨_, hmem, rfl, rfl, rfl, rfl, rfl, rfl, rfl⟩

/-! ## Concrete fixtures -/

/-- Appointment 1 of doctor 1 and patient 1 at day 10, 10:00, Cancelled. -/
def aptCancelled1 : Apt :=
  { id := 1, appointment_id := "APT001", patient_id := 1, doctor_id := 1,
    appointment_date := 10, appointment_time := 600, status := .Cancelled,
    appointment_type := "Consultation", reason := none, priority := "Normal",
    estimated_duration := 30, created_at := 0, updated_at := 0 }

/-- The same slot, but Scheduled. -/
def aptSched1 : Apt := { aptCancelled1 with status := .Scheduled }

/-- A Scheduled appointment one day later at day 11, 10:00. -/
def aptSched2 : Apt :=
  { aptCancelled1 with id := 2, appointment_id := "APT002", appointment_date := 11, status := .Scheduled }

/-- A Cancelled appointment at day 11, 10:00. -/
def aptCancelled2 : Apt := { aptSched2 with status := .Cancelled }

/-- A Scheduled appointment at day 1, 00:00 (minute 1440 of the epoch). -/
def aptSchedSoon : Apt :=
  { aptCancelled1 with appointment_date := 1, appointment_time := 0, status := .Scheduled }

/-- Appointment 5 of doctor 1, already Completed. -/
def aptCompleted5 : Apt :=
  { aptCancelled1 with id := 5, appointment_id := "APT005", status := .Completed }

/-- The treatment created by the first completion of appointment 5. -/
def trtFirst : Trt :=
  { id := 1, treatment_id := "TRT001", appointment_id := 5, diagnosis := "Flu",
    prescription := none, treatment_notes := none, follow_up_date := none }

/-! ## Claims C1, C2, C10: booking -/

/-- C1 as stated is refuted: in this store no appointment with an active
status occupies (doctor 1, day 10, 10:00) — the only occupant is
Cancelled — yet Create for that slot does not succeed: the insert
violates the status-blind `unique_appointment_slot` constraint, the
`except` branch rolls back, and the handler reports a generic failure. -/
theorem create_free_active_slot_still_fails :
    slotConflictActive 1 10 600 [aptCancelled1] = false ∧
    confirm_appointment 2 (some 1) (some 10) (some 600) none 5 ⟨[aptCancelled1], []⟩ =
      .error .DBError := by
  decide

/-- C1 (amended): for present and parsed doctor, date and time, and a
store whose freshly generated identifier is unused, Create succeeds if
and only if no appointment of ANY status occupies the exact
(doctor, date, time) — not merely no active one, because the table-level
`unique_appointment_slot` constraint ignores status; an active occupant
fails with `SlotConflict` and creates nothing, and on success the new
appointment is appended with status Scheduled, priority Normal and
estimated_duration 30. -/
theorem create_booking_semantics (patientPk doc : Nat) (d : Date) (t : Time)
    (reason : Option String) (now : Nat) (s : Store) (hfresh : freshApptId s = true) :
    ((∃ s', confirm_appointment patientPk (some doc) (some d) (some t) reason now s = .ok s') ↔
      slotTakenAny doc d t s.appts = false) ∧
    (slotConflictActive doc d t s.appts = true →
      confirm_appointment patientPk (some doc) (some d) (some t) reason now s =
        .error .SlotConflict) ∧
    (∀ s', confirm_appointment patientPk (some doc) (some d) (some t) reason now s = .ok s' →
      ∃ nid, genNextApptId s = some nid ∧
        s'.appts = s.appts ++
          [{ id := apptPkNext s.appts, appointment_id := nid, patient_id := patientPk,
             doctor_id := doc, appointment_date := d, appointment_time := t,
             status := .Scheduled, appointment_type := "Consultation", reason := reason,
             priority := "Normal", estimated_duration := 30,
             created_at := now, updated_at := now }] ∧
        s'.treatments = s.treatments) :=
  confirm_appointment_spec patientPk doc d t reason now s hfresh

/-- Witness for C1: in a store holding one Scheduled appointment at the
slot, booking it again fails with `SlotConflict`. -/
theorem create_booking_semantics_witness :
    confirm_appointment 2 (some 1) (some 10) (some 600) none 5 ⟨[aptSched1], []⟩ =
      .error .SlotConflict :=
  (create_booking_semantics 2 1 10 600 none 5 ⟨[aptSched1], []⟩ (by decide)).2.1 (by decide)

/-- C2 is violated by the code: every appointment at (doctor 1, day 10,
10:00) in this store has a non-active status (Cancelled), yet a new
Create for that slot fails instead of succeeding — the status-blind
`unique_appointment_slot` constraint blocks the insert, so non-active
appointments do block reuse of the slot. -/
theorem cancelled_slot_blocks_rebooking :
    ([aptCancelled1].all fun b => !isActive b.status) = true ∧
    confirm_appointment 2 (some 1) (some 10) (some 600) none 5 ⟨[aptCancelled1], []⟩ =
      .error .DBError := by
  decide

/-- C10: the booking handler treats only doctor, date and time as
required; a request whose reason is absent (`None`) or the empty string
passes validation and, when the slot is entirely free and the generated
identifier unused, succeeds and stores the appointment with exactly that
empty reason. -/
theorem create_reason_not_required (patientPk doc : Nat) (d : Date) (t : Time)
    (reason : Option String) (now : Nat) (s : Store)
    (hfresh : freshApptId s = true)
    (hfree : slotTakenAny doc d t s.appts = false)
    (_hreason : reason = none ∨ reason = some "") :
    ∃ s', confirm_appointment patientPk (some doc) (some d) (some t) reason now s = .ok s' ∧
      ∃ nid, s'.appts = s.appts ++
        [{ id := apptPkNext s.appts, appointment_id := nid, patient_id := patientPk,
           doctor_id := doc, appointment_date := d, appointment_time := t,
           status := .Scheduled, appointment_type := "Consultation", reason := reason,
           priority := "Normal", estimated_duration := 30,
           created_at := now, updated_at := now }] := by
  obtain ⟨s', hs'⟩ := (confirm_appointment_spec patientPk doc d t reason now s hfresh).1.mpr hfree
  obtain ⟨nid, -, happ, -⟩ :=
    (confirm_appointment_spec patientPk doc d t reason now s hfresh).2.2 s' hs'
  exact ⟨s', hs', nid, happ⟩

/-- Witness for C10: booking with an absent reason on the empty store
succeeds and the stored row carries `reason = none`. -/
theorem create_reason_not_required_witness :
    ∃ s', confirm_appointment 1 (some 1) (some 10) (some 600) none 0 ⟨[], []⟩ = .ok s' ∧
      ∃ nid, s'.appts = ([] : List Apt) ++
        [{ id := apptPkNext [], appointment_id := nid, patient_id := 1,
           doctor_id := 1, appointment_date := 10, appointment_time := 600,
           status := .Scheduled, appointment_type := "Consultation", reason := none,
           priority := "Normal", estimated_duration := 30,
           created_at := 0, updated_at := 0 }] :=
  create_reason_not_required 1 1 10 600 none 0 ⟨[], []⟩ (by decide) (by decide) (Or.inl rfl)

/-! ## Claim C3: completion -/

/-- C3 is violated by the code: `complete_appointment` never checks the
current status, so completing appointment 5 — already Completed, with one
treatment on file — succeeds again with diagnosis Flu and inserts a
second Treatment with the fresh identifier `TRT002`, instead of failing
with `InvalidTransition` and creating nothing. -/
theorem recompletion_creates_second_treatment :
    complete_appointment 1 5 (some "Flu") none none none 9 ⟨[aptCompleted5], [trtFirst]⟩ =
      .ok ⟨[{ aptCompleted5 with updated_at := 9 }],
           [trtFirst,
            { id := 2, treatment_id := "TRT002", appointment_id := 5, diagnosis := "Flu",
              prescription := none, treatment_notes := none, follow_up_date := none }]⟩ := by
  decide

/-! ## Claims C4, C9: reschedule -/

/-- C4 as stated is refuted: appointment 1 is Scheduled and no OTHER
active appointment occupies the target slot (day 11, 10:00) — the only
occupant is Cancelled — so the claim predicts success, yet the flow
fails: the status-blind `unique_appointment_slot` constraint rejects the
update at commit time. -/
theorem reschedule_to_cancelled_slot_fails :
    schedOrConfirmed aptSched1.status = true ∧
    ([aptSched1, aptCancelled2].any fun b => b.doctor_id == 1 && b.appointment_date == 11 &&
      b.appointment_time == 600 && isActive b.status && b.id != 1) = false ∧
    reschedule_flow 1 1 (some 11) (some 600) 9 ⟨[aptSched1, aptCancelled2], []⟩ =
      .error .DBError := by
  decide

/-- Witness for C4: with an active appointment of the same doctor in the
target slot, rescheduling fails with `SlotConflict`. -/
theorem reschedule_flow_semantics_witness :
    reschedule_flow 1 1 (some 11) (some 600) 9 ⟨[aptSched1, aptSched2], []⟩ =
      .error .SlotConflict :=
  (reschedule_flow_semantics 1 1 11 600 9 ⟨[aptSched1, aptSched2], []⟩ aptSched1
    (by decide)).2.2.1 (by decide) (by decide)

/-- Witness for C9: a successful reschedule of appointment 1 to day 11,
10:00 leaves the treatments table, the row count, and the row's identity
fields unchanged. -/
theorem reschedule_preserves_identity_witness :
    (⟨[{ aptSched1 with appointment_date := 11, updated_at := 9 }], []⟩ : Store).treatments =
      (⟨[aptSched1], []⟩ : Store).treatments ∧
    (⟨[{ aptSched1 with appointment_date := 11, updated_at := 9 }], []⟩ : Store).appts =
      ((⟨[aptSched1], []⟩ : Store).appts.map fun b => if b.id == 1 then
        { b with appointment_date := 11, appointment_time := 600, updated_at := 9 } else b) ∧
    (⟨[{ aptSched1 with appointment_date := 11, updated_at := 9 }], []⟩ : Store).appts.length =
      (⟨[aptSched1], []⟩ : Store).appts.length := by
  have h := reschedule_preserves_identity 1 1 11 600 9 ⟨[aptSched1], []⟩
    ⟨[{ aptSched1 with appointment_date := 11, updated_at := 9 }], []⟩ (by decide)
  exact ⟨h.1, h.2.1, h.2.2.1⟩

/-! ## Claims C5, C6: cancellation -/

/-- Witness for C5 at the boundary: for an appointment scheduled at
minute 1440, a cancellation requested at minute 0 (exactly 24 hours
before) succeeds, and one requested at minute 1 (23 hours 59 minutes
before) fails with `PolicyViolation`. -/
theorem patient_cancel_semantics_witness :
    (∃ s', cancel_appointment_patient 1 1 0 ⟨[aptSchedSoon], []⟩ = .ok s') ∧
    cancel_appointment_patient 1 1 1 ⟨[aptSchedSoon], []⟩ = .error .PolicyViolation :=
  ⟨((patient_cancel_semantics 1 1 0 ⟨[aptSchedSoon], []⟩ aptSchedSoon (by decide)).1).mpr
      (by decide),
    (patient_cancel_semantics 1 1 1 ⟨[aptSchedSoon], []⟩ aptSchedSoon (by decide)).2.2.1
      (by decide) (by decide)⟩

/-- C6 is violated by the code: neither the doctor-side nor the
admin-side cancel checks the current status, so cancelling appointment 5
— already in the terminal status Completed — succeeds on both paths and
overwrites the status with Cancelled, instead of failing with
`InvalidTransition` and leaving the row unchanged. -/
theorem terminal_cancel_succeeds_in_code :
    cancel_appointment_doctor 1 5 9 ⟨[aptCompleted5], []⟩ =
      .ok ⟨[{ aptCompleted5 with status := .Cancelled, updated_at := 9 }], []⟩ ∧
    cancel_appointment_admin 5 9 ⟨[aptCompleted5], []⟩ =
      .ok ⟨[{ aptCompleted5 with status := .Cancelled, updated_at := 9 }], []⟩ := by
  decide

end HMS
